import Mathlib

/-!
Verification of the parallel_api proxy layer: a shallow embedding of the
task-run data model (`parallel_api/models/tasks.py`), the completion waiter
(`parallel_api/clients/async_client.py`), the REST error mapping and the
in-memory task dispatch registry (`parallel_api/fastapi_app.py`), the
credential gate (`fastapi_app.py` / `mcp_server.py`) and the search request
serialization (`parallel_api/models/search.py`), together with theorems
settling the specified behaviour of each.

Modelling conventions: JSON dictionary payloads whose contents no property
inspects are abstracted as string key-value lists; wall-clock durations
(floats in the source) are modelled as rationals; the waiter's unbounded
`while True` loop takes an explicit fuel argument, and every property is
proved for all sufficiently large fuel.
-/

/-- Arbitrary JSON object payloads (Python `dict`), abstracted as string
key-value association lists: no verified property inspects their contents. -/
def JsonObj : Type := List (String × String)

instance : DecidableEq JsonObj := by
  unfold JsonObj
  infer_instance

instance : Repr JsonObj := by
  unfold JsonObj
  infer_instance

/-- `TaskRunStatus` from `parallel_api/models/tasks.py`: the seven lifecycle
states of a remote task run. -/
inductive TaskRunStatus where
  | queued
  | action_required
  | running
  | completed
  | failed
  | cancelling
  | cancelled
deriving DecidableEq, Repr

/-- The wire string of each status (the Python enum `.value`). -/
def TaskRunStatus.value : TaskRunStatus → String
  | .queued => "queued"
  | .action_required => "action_required"
  | .running => "running"
  | .completed => "completed"
  | .failed => "failed"
  | .cancelling => "cancelling"
  | .cancelled => "cancelled"

/-- Parsing a wire string into a status, as pydantic enum validation does;
`none` on an unknown string. -/
def TaskRunStatus.ofString (s : String) : Option TaskRunStatus :=
  if s = "queued" then some .queued
  else if s = "action_required" then some .action_required
  else if s = "running" then some .running
  else if s = "completed" then some .completed
  else if s = "failed" then some .failed
  else if s = "cancelling" then some .cancelling
  else if s = "cancelled" then some .cancelled
  else none

/-- The statuses the spec calls active. -/
def active_statuses : List TaskRunStatus :=
  [.queued, .action_required, .running, .cancelling]

/-- The statuses the spec calls terminal. -/
def terminal_statuses : List TaskRunStatus :=
  [.completed, .failed, .cancelled]

/-- Structured error of a failed task run (`TaskRunError` in `tasks.py`). -/
structure TaskRunError where
  code : String
  message : String
  details : Option JsonObj
deriving DecidableEq, Repr

/-- `TaskRun` from `parallel_api/models/tasks.py`. Note that `is_active` is a
declared boolean field of its own, supplied by the remote payload; it is not
computed from `status`. -/
structure TaskRun where
  run_id : String
  status : TaskRunStatus
  is_active : Bool
  processor : String
  created_at : String
  modified_at : String
  metadata : Option JsonObj
  taskgroup_id : Option String
  warnings : Option (List JsonObj)
  error : Option TaskRunError
deriving DecidableEq, Repr

/-- A raw task-run JSON payload before validation: each field either present
or missing, the status still a wire string. -/
structure RawTaskRun where
  run_id : Option String
  status : Option String
  is_active : Option Bool
  processor : Option String
  created_at : Option String
  modified_at : Option String
  metadata : Option JsonObj
  taskgroup_id : Option String
  warnings : Option (List JsonObj)
  error : Option TaskRunError
deriving DecidableEq, Repr

/-- `TaskRun.model_validate`: requires the six non-optional fields and a
recognized status string, passes the optional fields through, and imposes no
cross-field constraint between `status` and `is_active`. -/
def TaskRun.model_validate (raw : RawTaskRun) : Option TaskRun :=
  match raw.run_id, raw.status, raw.is_active, raw.processor,
        raw.created_at, raw.modified_at with
  | some rid, some st, some act, some proc, some ca, some ma =>
      (TaskRunStatus.ofString st).map fun s =>
        { run_id := rid
          status := s
          is_active := act
          processor := proc
          created_at := ca
          modified_at := ma
          metadata := raw.metadata
          taskgroup_id := raw.taskgroup_id
          warnings := raw.warnings
          error := raw.error }
  | _, _, _, _, _, _ => none

/-- A well-formed raw payload with the given status and `is_active` flag. -/
def mk_raw_task_run (s : TaskRunStatus) (b : Bool) : RawTaskRun :=
  { run_id := some "run-1"
    status := some s.value
    is_active := some b
    processor := some "base"
    created_at := some "2026-01-22T18:00:00Z"
    modified_at := some "2026-01-22T18:00:00Z"
    metadata := none
    taskgroup_id := none
    warnings := none
    error := none }

/-- The task run `mk_raw_task_run s b` validates to. -/
def mk_task_run (s : TaskRunStatus) (b : Bool) : TaskRun :=
  { run_id := "run-1"
    status := s
    is_active := b
    processor := "base"
    created_at := "2026-01-22T18:00:00Z"
    modified_at := "2026-01-22T18:00:00Z"
    metadata := none
    taskgroup_id := none
    warnings := none
    error := none }

/-! ## Completion waiter (`ParallelClient.wait_for_task_run`)

The source loop: fetch the run; if it is no longer active, return it; if the
elapsed wall-clock time exceeds the timeout, raise
`TimeoutError(f"Task (run_id) did not complete within (timeout)s")`; else
sleep one poll interval and repeat. The embedding threads the fetch counter
and the elapsed clock explicitly (fetches are instantaneous; time advances by
`poll_interval` at each sleep) and counts fetches and sleeps in the outcome. -/

/-- Outcome of the waiter: the returned run or the raised timeout error (which
carries the operation identifier and the configured timeout, as the error
message does), each with the number of fetches and sleeps performed; or fuel
exhaustion, which stands for not having returned yet. -/
inductive WaitOutcome where
  | success (run : TaskRun) (fetches : Nat) (sleeps : Nat)
  | timedOut (run_id : String) (timeout : ℚ) (fetches : Nat) (sleeps : Nat)
  | fuelExhausted
deriving DecidableEq, Repr

/-- Sleeps performed by a finished wait (0 for fuel exhaustion). -/
def WaitOutcome.sleep_count : WaitOutcome → Nat
  | .success _ _ s => s
  | .timedOut _ _ _ s => s
  | .fuelExhausted => 0

/-- One loop of `wait_for_task_run`: `calls` fetches already made, `elapsed`
wall-clock time since the wait began. -/
def wait_for_task_run_aux (fetch : Nat → TaskRun) (run_id : String)
    (poll_interval timeout : ℚ) : Nat → Nat → ℚ → WaitOutcome
  | 0, _, _ => .fuelExhausted
  | fuel + 1, calls, elapsed =>
      let run := fetch calls
      if run.is_active = false then
        .success run (calls + 1) calls
      else if elapsed > timeout then
        .timedOut run_id timeout (calls + 1) calls
      else
        wait_for_task_run_aux fetch run_id poll_interval timeout fuel
          (calls + 1) (elapsed + poll_interval)

/-- `wait_for_task_run`, started with no fetches made and the clock at zero. -/
def wait_for_task_run (fetch : Nat → TaskRun) (run_id : String)
    (poll_interval timeout : ℚ) (fuel : Nat) : WaitOutcome :=
  wait_for_task_run_aux fetch run_id poll_interval timeout fuel 0 0

/-- Source default poll interval (seconds). -/
def default_poll_interval : ℚ := 2

/-- Source default timeout (seconds). -/
def default_timeout : ℚ := 300

/-- A run that is still active, as an always-running fake client returns. -/
def running_run : TaskRun := mk_task_run .running true

/-- A run that has completed (inactive). -/
def completed_run : TaskRun := mk_task_run .completed false

/-! ## REST error envelope and the search route (`parallel_api/fastapi_app.py`)

`_status_to_error_type` maps an HTTP status code to an error-type string; the
`HTTPException` handler builds the `(error: (type, message, param, code))`
envelope from a raised `APIException` by applying that map to the exception's
own status code. The `/api/search` route calls the client inside a
`try/except Exception` and re-raises any failure as a 500 `APIException` with
code `search_failed`. The client raises `httpx.HTTPStatusError` from
`response.raise_for_status()` on any non-2xx remote status. -/

/-- The structured error body (`ErrorInfo` model). -/
structure ErrorInfo where
  type : String
  message : String
  param : Option String
  code : Option String
deriving DecidableEq, Repr

/-- `APIException`: an HTTPException with the structured extra fields. -/
structure APIException where
  status_code : Nat
  detail : String
  param : Option String
  code : Option String
deriving DecidableEq, Repr

/-- `_status_to_error_type` from `fastapi_app.py`. -/
def status_to_error_type (status_code : Nat) : String :=
  if status_code = 400 then "invalid_request_error"
  else if status_code = 401 then "authentication_error"
  else if status_code = 403 then "permission_error"
  else if status_code = 404 then "not_found_error"
  else if status_code = 422 then "invalid_request_error"
  else if status_code = 429 then "rate_limit_error"
  else if status_code = 500 then "api_error"
  else if status_code = 502 then "api_error"
  else if status_code = 503 then "overloaded_error"
  else "api_error"

/-- The `HTTPException` handler (`structured_exception_handler`): the
envelope's `type` is derived from the raised exception's own status code. -/
def structured_exception_handler (exc : APIException) : ErrorInfo :=
  { type := status_to_error_type exc.status_code
    message := exc.detail
    param := exc.param
    code := exc.code }

/-- `httpx.HTTPStatusError`: raised for a non-2xx response, carrying the
response's status code and a rendered message. -/
structure HTTPStatusError where
  status_code : Nat
  message : String
deriving DecidableEq, Repr

/-- `response.raise_for_status()`: succeeds on a 2xx status, otherwise raises
an `HTTPStatusError` for that status. -/
def raise_for_status (status_code : Nat) (message : String) :
    Except HTTPStatusError Unit :=
  if 200 ≤ status_code ∧ status_code < 300 then .ok ()
  else .error { status_code := status_code, message := message }

/-- The remote call made by `ParallelClient.search`, reduced to its error
behaviour: `raise_for_status` on the remote status, then the parsed payload. -/
def search_client_call {α : Type} (remote_status : Nat) (remote_message : String)
    (payload : α) : Except HTTPStatusError α :=
  (raise_for_status remote_status remote_message).map fun _ => payload

/-- The `/api/search` route body: a successful client call is passed through;
any exception `e` is re-raised as
`APIException(status_code=500, detail=f"Search operation failed: (e)",
code="search_failed")`. -/
def search_route {α : Type} (client_result : Except HTTPStatusError α) :
    Except APIException α :=
  match client_result with
  | .ok v => .ok v
  | .error e =>
      .error
        { status_code := 500
          detail := "Search operation failed: " ++ e.message
          param := none
          code := some "search_failed" }

/-- The full REST boundary for `/api/search` on a remote response with the
given status: the route's result, errors rendered through the exception
handler into the structured envelope. -/
def search_boundary (remote_status : Nat) (remote_message : String) :
    Except ErrorInfo Unit :=
  match search_route (search_client_call remote_status remote_message ()) with
  | .ok v => .ok v
  | .error exc => .error (structured_exception_handler exc)

/-! ## Credential gate (`get_parallel_client` in `fastapi_app.py`,
`get_client` in `mcp_server.py`)

Both front ends read `settings.parallel_apikey` and fail before constructing
the HTTP client when it is falsy (unset or the empty string). The setting is
modelled as `Option String`; Python truthiness of `None`/`""` as `is_falsy`. -/

/-- A constructed `ParallelClient`, reduced to its configuration; the network
behaviour of a capability call is a function out of this type. -/
structure ParallelClientCfg where
  api_key : String
deriving DecidableEq, Repr

/-- Python falsiness of an optional string setting: unset or empty. -/
def is_falsy : Option String → Bool
  | none => true
  | some s => s = ""

/-- Python `ValueError`, as raised by the tool front end. -/
structure ValueError where
  message : String
deriving DecidableEq, Repr

/-- The `APIException` raised by the REST dependency when the key is missing. -/
def missing_key_exc : APIException :=
  { status_code := 500
    detail := "PARALLEL_APIKEY not configured. Set environment variable or add to .env file."
    param := none
    code := some "missing_api_key" }

/-- `get_parallel_client` (REST dependency): raise `missing_key_exc` when the
configured key is falsy, else construct the client. -/
def get_parallel_client (parallel_apikey : Option String) :
    Except APIException ParallelClientCfg :=
  if is_falsy parallel_apikey then .error missing_key_exc
  else .ok { api_key := parallel_apikey.getD "" }

/-- The `ValueError` raised by the tool front end when the key is missing. -/
def missing_key_value_error : ValueError :=
  { message := "PARALLEL_APIKEY not configured. Set it in .env or environment variables." }

/-- `get_client` (`mcp_server.py`): raise a `ValueError` when the configured
key is falsy, else construct the client. -/
def get_client (parallel_apikey : Option String) :
    Except ValueError ParallelClientCfg :=
  if is_falsy parallel_apikey then .error missing_key_value_error
  else .ok { api_key := parallel_apikey.getD "" }

/-! ## Search request serialization (`parallel_api/models/search.py`)

`ParallelClient.search` posts `request.model_dump(exclude_none=True)`: fields
holding `None` are dropped, populated fields are emitted in declaration
order. Every field of `SearchRequest` is optional. -/

/-- A primitive JSON value as appearing in a dumped request. -/
inductive JPrim where
  | null
  | str (s : String)
  | num (n : Int)
  | bool (b : Bool)
  | strList (xs : List String)
deriving DecidableEq, Repr

/-- A JSON value in a dumped request: a primitive or a one-level object (the
dump of a nested config model). -/
inductive JValue where
  | prim (p : JPrim)
  | obj (fields : List (String × JPrim))
deriving DecidableEq, Repr

/-- `SearchMode` enum. -/
inductive SearchMode where
  | one_shot
  | agentic
deriving DecidableEq, Repr

/-- Wire value of a search mode. -/
def SearchMode.value : SearchMode → String
  | .one_shot => "one-shot"
  | .agentic => "agentic"

/-- `ExcerptConfig`: both fields optional. -/
structure ExcerptConfig where
  max_chars_per_result : Option Int
  max_chars_total : Option Int
deriving DecidableEq, Repr

/-- `SourcePolicy` (search variant): all fields optional; the date is carried
as its wire string. -/
structure SourcePolicy where
  include_domains : Option (List String)
  exclude_domains : Option (List String)
  after_date : Option String
deriving DecidableEq, Repr

/-- `FetchPolicy`: all fields optional. -/
structure FetchPolicy where
  max_age_seconds : Option Int
  timeout_seconds : Option Int
  disable_cache_fallback : Option Bool
deriving DecidableEq, Repr

/-- `SearchRequest`: every field is `Optional`; `mode` and `max_results` have
non-`None` defaults in the source but may be set to `None` explicitly. -/
structure SearchRequest where
  objective : Option String
  search_queries : Option (List String)
  mode : Option SearchMode
  max_results : Option Int
  excerpts : Option ExcerptConfig
  source_policy : Option SourcePolicy
  fetch_policy : Option FetchPolicy
deriving DecidableEq, Repr

/-- The `exclude_none` treatment of one field: a populated field becomes one
key-value entry, an absent (`None`) field is dropped — never emitted as
`null`. -/
def opt_entry {β γ : Type} (key : String) (render : β → γ) :
    Option β → List (String × γ)
  | some v => [(key, render v)]
  | none => []

/-- Dump of a nested `ExcerptConfig`, dropping `None` fields. -/
def ExcerptConfig.dump (c : ExcerptConfig) : List (String × JPrim) :=
  opt_entry "max_chars_per_result" JPrim.num c.max_chars_per_result ++
  opt_entry "max_chars_total" JPrim.num c.max_chars_total

/-- Dump of a nested `SourcePolicy`, dropping `None` fields. -/
def SourcePolicy.dump (c : SourcePolicy) : List (String × JPrim) :=
  opt_entry "include_domains" JPrim.strList c.include_domains ++
  opt_entry "exclude_domains" JPrim.strList c.exclude_domains ++
  opt_entry "after_date" JPrim.str c.after_date

/-- Dump of a nested `FetchPolicy`, dropping `None` fields. -/
def FetchPolicy.dump (c : FetchPolicy) : List (String × JPrim) :=
  opt_entry "max_age_seconds" JPrim.num c.max_age_seconds ++
  opt_entry "timeout_seconds" JPrim.num c.timeout_seconds ++
  opt_entry "disable_cache_fallback" JPrim.bool c.disable_cache_fallback

/-- `SearchRequest.model_dump(exclude_none=True)`: emit exactly the populated
fields, in declaration order; absent fields are dropped, never emitted as
`null`. -/
def SearchRequest.model_dump_exclude_none (r : SearchRequest) :
    List (String × JValue) :=
  opt_entry "objective" (fun s => JValue.prim (JPrim.str s)) r.objective ++
  opt_entry "search_queries" (fun xs => JValue.prim (JPrim.strList xs))
    r.search_queries ++
  opt_entry "mode" (fun m => JValue.prim (JPrim.str m.value)) r.mode ++
  opt_entry "max_results" (fun n => JValue.prim (JPrim.num n)) r.max_results ++
  opt_entry "excerpts" (fun c => JValue.obj c.dump) r.excerpts ++
  opt_entry "source_policy" (fun c => JValue.obj c.dump) r.source_policy ++
  opt_entry "fetch_policy" (fun c => JValue.obj c.dump) r.fetch_policy

/-- Number of populated (non-`None`) fields of a `SearchRequest`. -/
def SearchRequest.count_populated (r : SearchRequest) : Nat :=
  (if r.objective.isSome then 1 else 0) +
  (if r.search_queries.isSome then 1 else 0) +
  (if r.mode.isSome then 1 else 0) +
  (if r.max_results.isSome then 1 else 0) +
  (if r.excerpts.isSome then 1 else 0) +
  (if r.source_policy.isSome then 1 else 0) +
  (if r.fetch_policy.isSome then 1 else 0)

/-! ## Task dispatch registry (`fastapi_app.py`, `/tasks/...` routes)

A module-level dict `_task_store` maps task identifiers to task records.
`dispatch_task` resolves the identifier as `body.task_id or str(uuid.uuid4())`
(so an empty supplied string is treated as absent), builds a fresh `pending`
record and stores it under the resolved identifier, overwriting any previous
record there. `get_task_status` returns the stored record or raises a 404
`APIException`. `cancel_task` raises 404 when unknown, a 400 invalid-state
`APIException` when the record is terminal, and otherwise sets the record's
status to `cancelled` and stamps `completed_at`. The store is modelled as a
function from identifiers to optional records; each operation returns the
resulting store alongside its response or raised exception. -/

/-- `TaskDispatchBody`: the dispatch request body. -/
structure TaskDispatchBody where
  task_id : Option String
  project : String
  task_description : String
  priority : Int
  max_turns : Int
deriving DecidableEq, Repr

/-- A record of `_task_store` (the dict built by `dispatch_task`). -/
structure DispatchTask where
  task_id : String
  status : String
  project : String
  task_description : String
  priority : Int
  max_turns : Int
  created_at : String
  started_at : Option String
  completed_at : Option String
  result : Option JsonObj
  error : Option String
deriving DecidableEq, Repr

/-- The in-memory task store. -/
def TaskStore : Type := String → Option DispatchTask

/-- `TaskStatusResponse`: the response model of the dispatch routes. Built via
`TaskStatusResponse(**task)`, which ignores the record's extra keys
(`task_description`, `priority`, `max_turns`). -/
structure TaskStatusResponse where
  task_id : String
  status : String
  project : String
  created_at : String
  started_at : Option String
  completed_at : Option String
  result : Option JsonObj
  error : Option String
deriving DecidableEq, Repr

/-- `TaskStatusResponse(**task)`. -/
def TaskStatusResponse.from_task (t : DispatchTask) : TaskStatusResponse :=
  { task_id := t.task_id
    status := t.status
    project := t.project
    created_at := t.created_at
    started_at := t.started_at
    completed_at := t.completed_at
    result := t.result
    error := t.error }

/-- The identifier `dispatch_task` stores under:
`body.task_id or str(uuid.uuid4())` — the generated identifier when the
supplied one is absent or falsy (empty). -/
def resolve_task_id (supplied : Option String) (generated_id : String) : String :=
  match supplied with
  | some s => if s = "" then generated_id else s
  | none => generated_id

/-- `dispatch_task`: build the fresh `pending` record and store it under the
resolved identifier (overwriting any record already there); respond with the
record. `generated_id` stands for `str(uuid.uuid4())` and `now` for
`datetime.now(UTC).isoformat()`. -/
def dispatch_task (store : TaskStore) (body : TaskDispatchBody)
    (generated_id : String) (now : String) : TaskStore × TaskStatusResponse :=
  let task_id := resolve_task_id body.task_id generated_id
  let task : DispatchTask :=
    { task_id := task_id
      status := "pending"
      project := body.project
      task_description := body.task_description
      priority := body.priority
      max_turns := body.max_turns
      created_at := now
      started_at := none
      completed_at := none
      result := none
      error := none }
  (fun k => if k = task_id then some task else store k,
   TaskStatusResponse.from_task task)

/-- The 404 `APIException` raised for an unknown task identifier. -/
def task_not_found_exc (task_id : String) : APIException :=
  { status_code := 404
    detail := "Task not found: " ++ task_id
    param := some "task_id"
    code := some "task_not_found" }

/-- `get_task_status`: the stored record, or the 404 exception when the
identifier is unknown. -/
def get_task_status (store : TaskStore) (task_id : String) :
    Except APIException TaskStatusResponse :=
  match store task_id with
  | some task => .ok (TaskStatusResponse.from_task task)
  | none => .error (task_not_found_exc task_id)

/-- The statuses `cancel_task` refuses to cancel. -/
def terminal_dispatch_statuses : List String :=
  ["completed", "failed", "cancelled"]

/-- The 400 `APIException` raised when cancelling a terminal-state task. -/
def invalid_state_exc (status : String) : APIException :=
  { status_code := 400
    detail := "Cannot cancel task in " ++ status ++ " state"
    param := some "task_id"
    code := some "invalid_task_state" }

/-- The body returned by a successful cancel. -/
structure CancelResponse where
  cancelled : Bool
  task_id : String
  status : String
deriving DecidableEq, Repr

/-- `cancel_task`: 404 when unknown; invalid-state 400 when the record's
status is in `("completed", "failed", "cancelled")`; otherwise set the
record's status to `cancelled`, stamp `completed_at` with `now`, and respond
with the cancellation body. The resulting store is returned in every case. -/
def cancel_task (store : TaskStore) (task_id : String) (now : String) :
    TaskStore × Except APIException CancelResponse :=
  match store task_id with
  | none => (store, .error (task_not_found_exc task_id))
  | some task =>
      if task.status ∈ terminal_dispatch_statuses then
        (store, .error (invalid_state_exc task.status))
      else
        let task2 : DispatchTask :=
          { task with status := "cancelled", completed_at := some now }
        (fun k => if k = task_id then some task2 else store k,
         .ok { cancelled := true, task_id := task_id, status := task2.status })

/-- The empty task store. -/
def empty_store : TaskStore := fun _ => none

/-! ## Theorems: completion waiter -/

/-- One unfolding of the waiter loop. -/
theorem wait_aux_step (fetch : Nat → TaskRun) (run_id : String)
    (p t : ℚ) (fuel calls : Nat) (elapsed : ℚ) :
    wait_for_task_run_aux fetch run_id p t (fuel + 1) calls elapsed =
      if (fetch calls).is_active = false then
        .success (fetch calls) (calls + 1) calls
      else if elapsed > t then
        .timedOut run_id t (calls + 1) calls
      else
        wait_for_task_run_aux fetch run_id p t fuel (calls + 1) (elapsed + p) :=
  rfl

/-- The waiter, started after `calls` fetches with clock `elapsed`, on a client
that stays active for `N` more fetches and then goes inactive, returns that
inactive run after `N + 1` further fetches, provided no deadline check fires
on the way; any fuel of at least `N + 1` suffices. -/
theorem wait_aux_completes (fetch : Nat → TaskRun) (run_id : String)
    (p t : ℚ) :
    ∀ (N calls k : Nat) (elapsed : ℚ),
      (∀ j, j < N → (fetch (calls + j)).is_active = true) →
      (fetch (calls + N)).is_active = false →
      (∀ j, j < N → ¬ (elapsed + j * p > t)) →
      wait_for_task_run_aux fetch run_id p t (k + N + 1) calls elapsed =
        .success (fetch (calls + N)) (calls + N + 1) (calls + N) := by
  intro N
  induction N with
  | zero =>
      intro calls k elapsed _ hdone _
      rw [show k + 0 + 1 = k + 1 from rfl, wait_aux_step, if_pos (by simpa using hdone)]
      simp
  | succ n ih =>
      intro calls k elapsed hact hdone hdl
      have h0 : ¬ (fetch calls).is_active = false := by
        have := hact 0 (Nat.succ_pos n)
        simp only [Nat.add_zero] at this
        simp [this]
      have hnt : ¬ elapsed > t := by
        have := hdl 0 (Nat.succ_pos n)
        simpa using this
      have hrec := ih (calls + 1) k (elapsed + p)
        (fun j hj => by
          have := hact (j + 1) (by omega)
          simpa [show calls + 1 + j = calls + (j + 1) from by omega] using this)
        (by
          have := hdone
          simpa [show calls + 1 + n = calls + (n + 1) from by omega] using this)
        (fun j hj => by
          have := hdl (j + 1) (by omega)
          intro hgt
          apply this
          have : elapsed + ((j : ℚ) + 1) * p = elapsed + p + (j : ℚ) * p := by ring
          push_cast
          linarith)
      rw [show k + (n + 1) + 1 = (k + (n + 1)) + 1 from rfl, wait_aux_step,
        if_neg h0, if_neg hnt]
      rw [show calls + (n + 1) = calls + 1 + n from by omega]
      exact hrec

/-- Claim C3: against a fake client that returns an active run for its first
`N` fetches and an inactive (completed) one on fetch `N + 1`, and a timeout
large enough that no deadline check fires (`N * poll_interval ≤ timeout`
suffices), the waiter returns the inactive run after exactly `N + 1` fetches
and exactly `N` sleeps of one poll interval each; any fuel of at least `N + 1`
suffices, and `N = 0` gives an immediate return with no sleep. -/
theorem waiter_returns_after_N_polls (N : Nat) (active_run done_run : TaskRun)
    (run_id : String) (p t : ℚ) (k : Nat)
    (hact : active_run.is_active = true)
    (hdone : done_run.is_active = false)
    (hp : 0 ≤ p)
    (ht : (N : ℚ) * p ≤ t) :
    wait_for_task_run (fun i => if i < N then active_run else done_run)
        run_id p t (k + N + 1) =
      .success done_run (N + 1) N := by
  have main := wait_aux_completes (fun i => if i < N then active_run else done_run)
      run_id p t N 0 k 0
    (fun j hj => by
      simp only [Nat.zero_add]
      rw [if_pos hj]
      exact hact)
    (by
      simp only [Nat.zero_add]
      rw [if_neg (lt_irrefl N)]
      exact hdone)
    (fun j hj => by
      intro hgt
      have hj' : (j : ℚ) ≤ (N : ℚ) := by exact_mod_cast Nat.le_of_lt hj
      have : (j : ℚ) * p ≤ (N : ℚ) * p := mul_le_mul_of_nonneg_right hj' hp
      simp only [zero_add] at hgt
      linarith)
  simp only [Nat.zero_add] at main
  rw [if_neg (lt_irrefl N)] at main
  exact main

/-- Claim C3 witness: two active polls then a completed one, interval 2,
timeout 300: the waiter returns the completed run after 3 fetches, 2 sleeps. -/
theorem waiter_returns_after_N_polls_witness :
    wait_for_task_run (fun i => if i < 2 then running_run else completed_run)
        "run-7" 2 300 10 =
      .success completed_run 3 2 :=
  waiter_returns_after_N_polls 2 running_run completed_run "run-7" 2 300 7
    rfl rfl (by norm_num) (by norm_num)

/-- Claim C2 counterexample: against an always-running fake client with poll
interval 2 and timeout 1 (timeout strictly shorter than the interval), the
waiter does not raise on or before its first deadline check: it sleeps one
full poll interval (sleep count 1, not 0) before the deadline check that
raises, because the first check sees an elapsed time of zero. -/
theorem waiter_sleeps_before_raising :
    (wait_for_task_run (fun _ => running_run) "run-42" 2 1 10).sleep_count = 1 ∧
    (1 : Nat) ≠ 0 := by
  have e1 : ¬ running_run.is_active = false := by decide
  have e2 : ¬ (0 : ℚ) > 1 := by norm_num
  have e3 : (0 : ℚ) + 2 > 1 := by norm_num
  constructor
  · unfold wait_for_task_run
    rw [show (10 : Nat) = 8 + 1 + 1 from rfl, wait_aux_step, if_neg e1, if_neg e2,
      wait_aux_step, if_neg e1, if_pos e3]
    rfl
  · decide

/-- Claim C2 (amended): against a client whose fetches all return an active
run, with `0 ≤ timeout < poll_interval`, the waiter raises a TimeoutError at
its second deadline check, after exactly two fetches and one full
poll-interval sleep — never looping forever (any fuel of at least 2 reaches
the raise) — and the raised error carries the operation identifier and the
configured timeout value. -/
theorem waiter_times_out_after_one_sleep (fetch : Nat → TaskRun)
    (run_id : String) (p t : ℚ) (k : Nat)
    (hact : ∀ n, (fetch n).is_active = true)
    (h0 : 0 ≤ t) (hlt : t < p) :
    wait_for_task_run fetch run_id p t (k + 2) = .timedOut run_id t 2 1 := by
  have s1 : ¬ (fetch 0).is_active = false := by simp [hact 0]
  have s2 : ¬ (0 : ℚ) > t := by linarith
  have s3 : ¬ (fetch (0 + 1)).is_active = false := by simp [hact (0 + 1)]
  have s4 : (0 : ℚ) + p > t := by linarith
  unfold wait_for_task_run
  rw [show k + 2 = (k + 1) + 1 from rfl, wait_aux_step, if_neg s1, if_neg s2,
    wait_aux_step, if_neg s3, if_pos s4]

/-- Claim C2 witness: identifier "run-42", interval 2, timeout 1, fuel 10 —
the raised error carries the identifier and the timeout, after 2 fetches and
1 sleep. -/
theorem waiter_times_out_after_one_sleep_witness :
    wait_for_task_run (fun _ => running_run) "run-42" 2 1 10 =
      .timedOut "run-42" 1 2 1 :=
  waiter_times_out_after_one_sleep (fun _ => running_run) "run-42" 2 1 8
    (fun _ => rfl) (by norm_num) (by norm_num)

/-! ## Theorems: task-run status partition and `is_active` -/

/-- Claim C4 counterexample: `is_active` is an independent declared field, not
derived from `status`; validation accepts a payload with `status`
`"completed"` and `is_active` `true`, so that valid `TaskRun` value violates
the claimed iff between `is_active` and membership in the active statuses. -/
theorem valid_task_run_can_violate_is_active_iff :
    TaskRun.model_validate (mk_raw_task_run .completed true) =
      some (mk_task_run .completed true) ∧
    ¬ ((mk_task_run .completed true).is_active = true ↔
        (mk_task_run .completed true).status ∈ active_statuses) := by
  constructor
  · rfl
  · decide

/-- Claim C4 (amended): the seven status values partition exhaustively and
disjointly into the active set (queued, action_required, running, cancelling)
and the terminal set (completed, failed, cancelled) — every status lies on
exactly one side; but `is_active` is an independently supplied field: a
well-formed payload with any status and either `is_active` value validates,
so the model does not enforce the iff between them. -/
theorem task_run_status_partition (s : TaskRunStatus) (b : Bool) :
    ((s ∈ active_statuses ∧ s ∉ terminal_statuses) ∨
      (s ∉ active_statuses ∧ s ∈ terminal_statuses)) ∧
    TaskRun.model_validate (mk_raw_task_run s b) = some (mk_task_run s b) := by
  constructor
  · cases s <;> decide
  · cases s <;> rfl

/-! ## Theorems: REST error boundary and credential gate -/

/-- Claim C1 counterexample: a remote HTTP 429 does not surface at the REST
search boundary as `rate_limit_error` — the route's blanket `except` re-raises
every client failure as a 500 `APIException` with code `search_failed`, so the
envelope's error type is `api_error`: the error kind is reclassified. -/
theorem remote_429_reclassified_at_search_boundary :
    search_boundary 429 "Client error 429" =
      .error
        { type := "api_error"
          message := "Search operation failed: Client error 429"
          param := none
          code := some "search_failed" } ∧
    "api_error" ≠ "rate_limit_error" := by
  constructor
  · rfl
  · decide

/-- Claim C1 (amended): the boundary's status-to-type map does send 429 to
`rate_limit_error` and 404 to `not_found_error`, but it is applied to the
status of the locally raised exception: the search route wraps every remote
error (any non-2xx remote status) into a 500 `APIException` with code
`search_failed`, so the envelope's error type is `api_error` regardless of
the remote status — the original error kind is not preserved. -/
theorem search_boundary_error_mapping (remote_status : Nat) (msg : String)
    (h : ¬ (200 ≤ remote_status ∧ remote_status < 300)) :
    search_boundary remote_status msg =
      .error
        { type := "api_error"
          message := "Search operation failed: " ++ msg
          param := none
          code := some "search_failed" } ∧
    status_to_error_type 429 = "rate_limit_error" ∧
    status_to_error_type 404 = "not_found_error" := by
  refine ⟨?_, rfl, rfl⟩
  unfold search_boundary search_route search_client_call raise_for_status
  rw [if_neg h]
  rfl

/-- Claim C1 witness: remote status 429. -/
theorem search_boundary_error_mapping_witness :
    search_boundary 429 "Too Many Requests" =
      .error
        { type := "api_error"
          message := "Search operation failed: Too Many Requests"
          param := none
          code := some "search_failed" } ∧
    status_to_error_type 429 = "rate_limit_error" ∧
    status_to_error_type 404 = "not_found_error" :=
  search_boundary_error_mapping 429 "Too Many Requests" (by decide)

/-- Claim C8: when the configured credential is falsy (unset or empty), both
front ends fail before any network call: the REST dependency raises the 500
missing-key `APIException` and the tool front end raises the missing-key
`ValueError`, and the composed call's outcome is that configuration error
whatever the network behaviour would have been — so no request reaches
the network. -/
theorem missing_credential_fails_fast {α β : Type}
    (parallel_apikey : Option String)
    (network_call : ParallelClientCfg → Except APIException α)
    (tool_network_call : ParallelClientCfg → Except ValueError β)
    (h : is_falsy parallel_apikey = true) :
    (get_parallel_client parallel_apikey).bind network_call =
      .error missing_key_exc ∧
    (get_client parallel_apikey).bind tool_network_call =
      .error missing_key_value_error := by
  constructor <;> simp [get_parallel_client, get_client, h, Except.bind]

/-- Claim C8 witness: an unset credential, with network behaviours that would
succeed if reached. -/
theorem missing_credential_fails_fast_witness :
    (get_parallel_client none).bind (fun c => Except.ok c.api_key) =
      .error missing_key_exc ∧
    (get_client none).bind (fun c => Except.ok c.api_key) =
      .error missing_key_value_error :=
  missing_credential_fails_fast none (fun c => Except.ok c.api_key)
    (fun c => Except.ok c.api_key) rfl

/-! ## Theorems: request serialization -/

/-- An `opt_entry` contributes one entry when populated, none when absent. -/
theorem opt_entry_length {β γ : Type} (key : String) (render : β → γ)
    (o : Option β) :
    (opt_entry key render o).length = if o.isSome then 1 else 0 := by
  cases o <;> rfl

/-- An `opt_entry` never emits a value the renderer cannot produce. -/
theorem opt_entry_mem {β γ : Type} (key : String) (render : β → γ)
    (o : Option β) :
    ∀ kv ∈ opt_entry key render o, ∃ v, kv = (key, render v) := by
  cases o with
  | none => intro kv hkv; simp [opt_entry] at hkv
  | some v =>
      intro kv hkv
      simp [opt_entry] at hkv
      exact ⟨v, hkv⟩

/-- The dump of a request has exactly one entry per populated field. -/
theorem search_dump_length (r : SearchRequest) :
    r.model_dump_exclude_none.length = r.count_populated := by
  unfold SearchRequest.model_dump_exclude_none SearchRequest.count_populated
  simp only [List.length_append, opt_entry_length]

/-- No entry of a dumped request carries the JSON `null`. -/
theorem search_dump_never_null (r : SearchRequest) :
    ∀ kv ∈ r.model_dump_exclude_none, kv.2 ≠ JValue.prim JPrim.null := by
  intro kv hkv
  unfold SearchRequest.model_dump_exclude_none at hkv
  simp only [List.mem_append] at hkv
  rcases hkv with ((((((h | h) | h) | h) | h) | h) | h) <;>
    · obtain ⟨v, rfl⟩ := opt_entry_mem _ _ _ _ h
      simp

/-- Claim C7: a request with exactly one populated optional field serializes
to a JSON object with exactly one key; absent optional fields are dropped
entirely and never serialized as `null`. -/
theorem one_populated_field_serializes_to_one_key (r : SearchRequest)
    (h : r.count_populated = 1) :
    r.model_dump_exclude_none.length = 1 ∧
    ∀ kv ∈ r.model_dump_exclude_none, kv.2 ≠ JValue.prim JPrim.null := by
  exact ⟨by rw [search_dump_length, h], search_dump_never_null r⟩

/-- A request with only `objective` populated. -/
def one_field_request : SearchRequest :=
  { objective := some "Find AI companies"
    search_queries := none
    mode := none
    max_results := none
    excerpts := none
    source_policy := none
    fetch_policy := none }

/-- Claim C7 witness: only `objective` populated — one key, no nulls. -/
theorem one_populated_field_serializes_to_one_key_witness :
    one_field_request.model_dump_exclude_none.length = 1 ∧
    ∀ kv ∈ one_field_request.model_dump_exclude_none,
      kv.2 ≠ JValue.prim JPrim.null :=
  one_populated_field_serializes_to_one_key one_field_request rfl

/-! ## Theorems: task dispatch registry -/

/-- Claim C5: `Cancel` fails with the 404 not-found exception when the
identifier is unknown; fails with the 400 invalid-state exception when the
stored record's status is terminal (completed, failed or cancelled); and
otherwise succeeds, setting the record's status to `cancelled` and stamping a
non-null completion timestamp. Consequently cancelling a pending task
succeeds, and cancelling that same task again fails with the invalid-state
exception. -/
theorem cancel_task_spec (store : TaskStore) (task_id now : String) :
    (store task_id = none →
      cancel_task store task_id now =
        (store, .error (task_not_found_exc task_id))) ∧
    (∀ t, store task_id = some t → t.status ∈ terminal_dispatch_statuses →
      cancel_task store task_id now =
        (store, .error (invalid_state_exc t.status))) ∧
    (∀ t, store task_id = some t → t.status ∉ terminal_dispatch_statuses →
      (cancel_task store task_id now).2 =
        .ok { cancelled := true, task_id := task_id, status := "cancelled" } ∧
      (cancel_task store task_id now).1 task_id =
        some { t with status := "cancelled", completed_at := some now }) ∧
    (∀ t now2, store task_id = some t → t.status = "pending" →
      (cancel_task store task_id now).2 =
        .ok { cancelled := true, task_id := task_id, status := "cancelled" } ∧
      (cancel_task (cancel_task store task_id now).1 task_id now2).2 =
        .error (invalid_state_exc "cancelled")) := by
  refine ⟨fun h => ?_, fun t h ht => ?_, fun t h ht => ?_, fun t now2 h ht => ?_⟩
  · simp [cancel_task, h]
  · simp [cancel_task, h, ht]
  · simp [cancel_task, h, ht]
  · have hnt : t.status ∉ terminal_dispatch_statuses := by
      rw [ht]; decide
    have h1 : (cancel_task store task_id now).1 task_id =
        some { t with status := "cancelled", completed_at := some now } := by
      simp [cancel_task, h, hnt]
    refine ⟨by simp [cancel_task, h, hnt], ?_⟩
    generalize hst2 : (cancel_task store task_id now).1 = st2 at h1
    simp [cancel_task, h1, terminal_dispatch_statuses]

/-- Claim C10: a successful `Cancel` changes only the `status` and
`completed_at` fields of the targeted record (all other fields are carried
over unchanged) and leaves every other record of the registry untouched; a
failed `Cancel` — unknown identifier or terminal record — leaves the whole
registry unchanged. -/
theorem cancel_task_frame (store : TaskStore) (task_id now : String) :
    (∀ t, store task_id = some t → t.status ∉ terminal_dispatch_statuses →
      (cancel_task store task_id now).1 task_id =
        some { t with status := "cancelled", completed_at := some now } ∧
      ∀ k, k ≠ task_id → (cancel_task store task_id now).1 k = store k) ∧
    (store task_id = none → (cancel_task store task_id now).1 = store) ∧
    (∀ t, store task_id = some t → t.status ∈ terminal_dispatch_statuses →
      (cancel_task store task_id now).1 = store) := by
  refine ⟨fun t h ht => ⟨?_, fun k hk => ?_⟩, fun h => ?_, fun t h ht => ?_⟩
  · simp [cancel_task, h, ht]
  · simp [cancel_task, h, ht, hk]
  · simp [cancel_task, h]
  · simp [cancel_task, h, ht]

/-- A dispatch body supplying the empty string as its task identifier. -/
def empty_id_body : TaskDispatchBody :=
  { task_id := some ""
    project := "demo"
    task_description := "do X"
    priority := 3
    max_turns := 10 }

/-- Claim C6 counterexample: supplying the empty string as the identifier does
not yield a record under the supplied identifier — Python falsiness of `""`
routes dispatch to the generated identifier, and a `GetStatus` on the supplied
(empty) identifier fails with the 404 not-found exception. -/
theorem dispatch_empty_supplied_id_uses_generated :
    (dispatch_task empty_store empty_id_body "gen-123" "t0").2.task_id =
      "gen-123" ∧
    "gen-123" ≠ "" ∧
    get_task_status (dispatch_task empty_store empty_id_body "gen-123" "t0").1
        "" =
      .error (task_not_found_exc "") := by
  refine ⟨rfl, by decide, ?_⟩
  rfl

/-- Claim C6 (amended): `GetStatus` returns the stored record when the
identifier is known and fails with the 404 not-found exception otherwise; a
`Dispatch` followed immediately by `GetStatus` on the returned identifier
yields the dispatched record with status `pending` and a non-empty
identifier — equal to the caller-supplied one when a non-empty identifier was
supplied, and to the freshly generated one when the supplied identifier was
absent or empty (Python falsiness). -/
theorem dispatch_then_get_status (store : TaskStore) (body : TaskDispatchBody)
    (generated_id now : String) (hgen : generated_id ≠ "") :
    (∀ id t, store id = some t →
      get_task_status store id = .ok (TaskStatusResponse.from_task t)) ∧
    (∀ id, store id = none →
      get_task_status store id = .error (task_not_found_exc id)) ∧
    (get_task_status (dispatch_task store body generated_id now).1
        (dispatch_task store body generated_id now).2.task_id =
      .ok (dispatch_task store body generated_id now).2) ∧
    (dispatch_task store body generated_id now).2.status = "pending" ∧
    (dispatch_task store body generated_id now).2.task_id ≠ "" ∧
    (∀ s, body.task_id = some s → s ≠ "" →
      (dispatch_task store body generated_id now).2.task_id = s) ∧
    ((body.task_id = none ∨ body.task_id = some "") →
      (dispatch_task store body generated_id now).2.task_id = generated_id) := by
  refine ⟨fun id t h => ?_, fun id h => ?_, ?_, rfl, ?_, fun s hs hne => ?_, fun h => ?_⟩
  · simp [get_task_status, h]
  · simp [get_task_status, h]
  · simp [dispatch_task, get_task_status, TaskStatusResponse.from_task]
  · rcases hb : body.task_id with _ | s
    · simpa [dispatch_task, TaskStatusResponse.from_task, resolve_task_id, hb]
        using hgen
    · by_cases hse : s = "" <;>
        simp [dispatch_task, TaskStatusResponse.from_task, resolve_task_id,
          hb, hse, hgen]
  · simp [dispatch_task, TaskStatusResponse.from_task, resolve_task_id, hs, hne]
  · rcases h with h | h <;>
      simp [dispatch_task, TaskStatusResponse.from_task, resolve_task_id, h]

/-- A dispatch body supplying a non-empty identifier. -/
def demo_body : TaskDispatchBody :=
  { task_id := some "task-1"
    project := "demo"
    task_description := "do X"
    priority := 3
    max_turns := 10 }

/-- Claim C6 witness: dispatch on the empty store with supplied identifier
"task-1" and generated identifier "gen-1". -/
theorem dispatch_then_get_status_witness :
    (∀ id t, empty_store id = some t →
      get_task_status empty_store id = .ok (TaskStatusResponse.from_task t)) ∧
    (∀ id, empty_store id = none →
      get_task_status empty_store id = .error (task_not_found_exc id)) ∧
    (get_task_status (dispatch_task empty_store demo_body "gen-1" "t0").1
        (dispatch_task empty_store demo_body "gen-1" "t0").2.task_id =
      .ok (dispatch_task empty_store demo_body "gen-1" "t0").2) ∧
    (dispatch_task empty_store demo_body "gen-1" "t0").2.status = "pending" ∧
    (dispatch_task empty_store demo_body "gen-1" "t0").2.task_id ≠ "" ∧
    (∀ s, demo_body.task_id = some s → s ≠ "" →
      (dispatch_task empty_store demo_body "gen-1" "t0").2.task_id = s) ∧
    ((demo_body.task_id = none ∨ demo_body.task_id = some "") →
      (dispatch_task empty_store demo_body "gen-1" "t0").2.task_id = "gen-1") :=
  dispatch_then_get_status empty_store demo_body "gen-1" "t0" (by decide)

/-- A terminal record stored under the empty-string key (an arbitrary registry
state). -/
def completed_record : DispatchTask :=
  { task_id := ""
    status := "completed"
    project := "demo"
    task_description := "done earlier"
    priority := 1
    max_turns := 25
    created_at := "t0"
    started_at := some "t0"
    completed_at := some "t1"
    result := none
    error := none }

/-- A registry whose only record sits under the empty-string key. -/
def store_with_empty_key : TaskStore :=
  fun k => if k = "" then some completed_record else none

/-- Claim C9 counterexample: dispatching with the caller-supplied identifier
`""` while a record exists under `""` does not replace that record — the
falsy supplied identifier is routed to the generated one, and the existing
(non-pending) record under `""` survives unchanged. -/
theorem dispatch_existing_empty_id_not_replaced :
    (dispatch_task store_with_empty_key empty_id_body "gen-9" "t2").1 "" =
      some completed_record ∧
    completed_record.status ≠ "pending" ∧
    (dispatch_task store_with_empty_key empty_id_body "gen-9" "t2").2.task_id =
      "gen-9" := by
  refine ⟨rfl, by decide, rfl⟩

/-- Claim C9 (amended): dispatching with a caller-supplied non-empty
identifier that already exists in the registry does not fail: it silently
replaces the existing record — whatever its status, terminal included — with
a fresh `pending` record whose `started_at`, `completed_at`, `result` and
`error` fields are all reset to null. (A supplied empty identifier is treated
as absent: dispatch stores under the generated identifier and the record at
the empty key is untouched.) -/
theorem dispatch_overwrites_existing (store : TaskStore)
    (body : TaskDispatchBody) (s generated_id now : String)
    (old : DispatchTask) (hsup : body.task_id = some s) (hne : s ≠ "")
    (_hold : store s = some old) :
    (dispatch_task store body generated_id now).1 s =
      some
        { task_id := s
          status := "pending"
          project := body.project
          task_description := body.task_description
          priority := body.priority
          max_turns := body.max_turns
          created_at := now
          started_at := none
          completed_at := none
          result := none
          error := none } ∧
    (dispatch_task store body generated_id now).2.task_id = s := by
  constructor
  · simp [dispatch_task, resolve_task_id, hsup, hne]
  · simp [dispatch_task, TaskStatusResponse.from_task, resolve_task_id,
      hsup, hne]

/-- The registry holding a failed record under "task-1". -/
def failed_record : DispatchTask :=
  { task_id := "task-1"
    status := "failed"
    project := "demo"
    task_description := "first attempt"
    priority := 2
    max_turns := 20
    created_at := "t0"
    started_at := some "t0"
    completed_at := some "t1"
    result := none
    error := some "boom" }

/-- A registry with a terminal record under "task-1". -/
def store_with_failed : TaskStore :=
  fun k => if k = "task-1" then some failed_record else none

/-- A dispatch body re-supplying the existing identifier "task-1". -/
def redispatch_body : TaskDispatchBody :=
  { task_id := some "task-1"
    project := "demo"
    task_description := "retry"
    priority := 2
    max_turns := 20 }

/-- Claim C9 witness: re-dispatching identifier "task-1" over an existing
failed record replaces it with a fresh pending record. -/
theorem dispatch_overwrites_existing_witness :
    (dispatch_task store_with_failed redispatch_body "gen-2" "t3").1 "task-1" =
      some
        { task_id := "task-1"
          status := "pending"
          project := redispatch_body.project
          task_description := redispatch_body.task_description
          priority := redispatch_body.priority
          max_turns := redispatch_body.max_turns
          created_at := "t3"
          started_at := none
          completed_at := none
          result := none
          error := none } ∧
    (dispatch_task store_with_failed redispatch_body "gen-2" "t3").2.task_id =
      "task-1" :=
  dispatch_overwrites_existing store_with_failed redispatch_body "task-1"
    "gen-2" "t3" failed_record rfl (by decide) rfl
